import Mathlib

/-!
# Shallow embedding of the IPB backend (posts / images / auth)

This file embeds the data model and the request handlers of the repository's
Express servers:

* `server.js` — the GridFS server (JWT auth, posts CRUD, orphan sweep);
* `src/unnamed/part_000` — the disk-upload server and the dual-DB
  (MongoDB + SQLite) server;
* `src/unnamed/part_001` — the Render server and the `postsController`.

Pure request handlers become Lean functions over an explicit store state.
External libraries (mongoose persistence, bcryptjs, jsonwebtoken, JS `Date`
parsing) are modelled by concrete executable stand-ins whose only role is to
carry the data flow the handlers themselves implement.
-/

namespace IPB

/-- The closed category enumeration of the Post schema
(`enum: ['Eventos', 'SAF', 'Ensaios', 'Visitas', 'Clube do Livro', 'Aniversariantes']`). -/
inductive Category
  | eventos
  | saf
  | ensaios
  | visitas
  | clubeDoLivro
  | aniversariantes
deriving DecidableEq, Repr

/-- The string label of each category, exactly as in the schema enum. -/
def Category.toStr : Category → String
  | .eventos => "Eventos"
  | .saf => "SAF"
  | .ensaios => "Ensaios"
  | .visitas => "Visitas"
  | .clubeDoLivro => "Clube do Livro"
  | .aniversariantes => "Aniversariantes"

/-- The six categories, in the order the count endpoints enumerate them. -/
def Category.elems : List Category :=
  [.eventos, .saf, .ensaios, .visitas, .clubeDoLivro, .aniversariantes]

/-- Mongoose enum validation: a category string is accepted iff it is one of
the six labels. -/
def parseCategory (s : String) : Option Category :=
  Category.elems.find? (fun c => c.toStr == s)

/-- A stored Post document (schema of `server.js` / `part_000` / `part_001` /
`models/Post.jsx`).  The event date is a millisecond timestamp. -/
structure Post where
  id : String
  title : String
  text : String
  category : Category
  images : List String
  date : Nat
  author : String
  isActive : Bool
deriving DecidableEq, Repr

/-- The Post collection plus a fresh-id counter standing for the backing
store's id generation. -/
structure ContentStore where
  posts : List Post
  nextId : Nat
deriving DecidableEq, Repr

/-- Model of the external JS `Date` parser: some fixed executable map from the
request's date string to a timestamp (its exact values are irrelevant to the
handlers, which only store the result). -/
def jsDateParse (s : String) : Nat :=
  s.foldl (fun a c => a * 256 + c.toNat) 0

/-- Model of the store's id generation for a newly saved document. -/
def mkId (n : Nat) : String := toString n

/-- Lowercase-hex digit test, as in the regex class `[a-f0-9]`. -/
def isHexLower (c : Char) : Bool :=
  ('0' ≤ c && c ≤ '9') || ('a' ≤ c && c ≤ 'f')

/-- `mongoose.Types.ObjectId.isValid`, modelled as "24 lowercase hex chars". -/
def objectIdValid (s : String) : Bool :=
  s.length == 24 && s.toList.all isHexLower

/-- A JSON request body for `POST /api/posts` and `PUT /api/posts/:id`.
Absent string fields are the empty string (both `undefined` and `''` are
falsy under the handlers' `!field` checks); `images` and `author` keep their
absent/present distinction because the handlers treat it. -/
structure PostBody where
  title : String
  text : String
  category : String
  date : String
  images : Option (List String)
  author : Option String
deriving DecidableEq, Repr

/-- The shared validation `if (!title || !text || !category || !date)` of the
create/update handlers.  `images` is not checked. -/
def fieldsMissing (b : PostBody) : Bool :=
  b.title == "" || b.text == "" || b.category == "" || b.date == ""

/-- Saving a new Post: fresh id, fields from the body (`images = []` default),
`isActive` defaulting to `true`, the given author. -/
def savePost (s : ContentStore) (b : PostBody) (c : Category) (authorName : String) :
    Post × ContentStore :=
  let p : Post :=
    { id := mkId s.nextId
      title := b.title
      text := b.text
      category := c
      images := b.images.getD []
      date := jsDateParse b.date
      author := authorName
      isActive := true }
  (p, { posts := s.posts ++ [p], nextId := s.nextId + 1 })

/-- Outcome of a mutating route: HTTP status, the store afterwards, and the
document echoed in the response (if any). -/
structure MutResp where
  status : Nat
  store : ContentStore
  payload : Option Post
deriving DecidableEq, Repr

/-- `POST /api/posts` of `server.js` (body of the handler after the auth
middlewares): validate the four fields, validate the category enum on save,
then persist with `author: req.user.name`.  The handler performs no
connectivity check; with the store unreachable the save rejects and the catch
block answers 400. -/
def createPost_srv (connected : Bool) (authorName : String) (b : PostBody)
    (s : ContentStore) : MutResp :=
  if fieldsMissing b then ⟨400, s, none⟩
  else
    match parseCategory b.category with
    | none => ⟨400, s, none⟩
    | some c =>
      if connected then
        let r := savePost s b c authorName
        ⟨201, r.2, some r.1⟩
      else ⟨400, s, none⟩

/-- JWT claims carried by a session token (`{ userId, username, name, role }`
as signed by the login route). -/
structure TokenClaims where
  userId : String
  username : String
  name : String
  role : String
deriving DecidableEq, Repr

/-- The full `POST /api/posts` route of `server.js`: `authenticateToken`
(resolved claims or 401), `requireAdminOrEditor` (403), then the create
handler. -/
def createPostRoute_srv (connected : Bool) (auth : Option TokenClaims)
    (b : PostBody) (s : ContentStore) : MutResp :=
  match auth with
  | none => ⟨401, s, none⟩
  | some claims =>
    if claims.role != "admin" && claims.role != "editor" then ⟨403, s, none⟩
    else createPost_srv connected claims.name b s

/-- `POST /api/posts` of the Render server (`part_001` lines 243-278):
validate the four fields, then check connectivity — 503 when the store is
unreachable — then persist.  The route has no auth middleware and the schema
default `author: 'Admin'` applies. -/
def createPost_render (connected : Bool) (b : PostBody) (s : ContentStore) : MutResp :=
  if fieldsMissing b then ⟨400, s, none⟩
  else if connected then
    match parseCategory b.category with
    | none => ⟨400, s, none⟩
    | some c =>
      let r := savePost s b c "Admin"
      ⟨201, r.2, some r.1⟩
  else ⟨503, s, none⟩

/-- The full replace performed by `findByIdAndUpdate(id, { title, text,
category, date, images })`.  An absent `images` field is stripped by mongoose
and leaves the stored list unchanged. -/
def applyUpdate (b : PostBody) (c : Category) (p : Post) : Post :=
  { p with
      title := b.title
      text := b.text
      category := c
      date := jsDateParse b.date
      images := b.images.getD p.images }

/-- `PUT /api/posts/:id` of `server.js`: field validation, ObjectId validity,
then `findByIdAndUpdate` (which rejects when disconnected; the catch block
answers 400), with enum validation (`runValidators: true`). -/
def updatePost_srv (connected : Bool) (id : String) (b : PostBody)
    (s : ContentStore) : MutResp :=
  if fieldsMissing b then ⟨400, s, none⟩
  else if !objectIdValid id then ⟨400, s, none⟩
  else if !connected then ⟨400, s, none⟩
  else
    match parseCategory b.category with
    | none => ⟨400, s, none⟩
    | some c =>
      match s.posts.find? (fun p => p.id == id) with
      | none => ⟨404, s, none⟩
      | some p =>
        ⟨200,
          { s with posts := s.posts.map (fun q => if q.id == id then applyUpdate b c q else q) },
          some (applyUpdate b c p)⟩

/-- `PUT /api/posts/:id` of the Render server: field validation, then the
connectivity check (503), then ObjectId validity and the update. -/
def updatePost_render (connected : Bool) (id : String) (b : PostBody)
    (s : ContentStore) : MutResp :=
  if fieldsMissing b then ⟨400, s, none⟩
  else if connected then
    if !objectIdValid id then ⟨400, s, none⟩
    else
      match parseCategory b.category with
      | none => ⟨400, s, none⟩
      | some c =>
        match s.posts.find? (fun p => p.id == id) with
        | none => ⟨404, s, none⟩
        | some p =>
          ⟨200,
            { s with posts := s.posts.map (fun q => if q.id == id then applyUpdate b c q else q) },
            some (applyUpdate b c p)⟩
  else ⟨503, s, none⟩

/-- The soft delete itself: `findByIdAndUpdate(id, { isActive: false })`. -/
def softDeleteAt (s : ContentStore) (id : String) : ContentStore :=
  { s with posts := s.posts.map (fun p => if p.id == id then { p with isActive := false } else p) }

/-- `DELETE /api/posts/:id` of the Render server: connectivity check (503),
ObjectId validity, then the soft delete (404 when no document has the id). -/
def deletePost_render (connected : Bool) (id : String) (s : ContentStore) : MutResp :=
  if connected then
    if !objectIdValid id then ⟨400, s, none⟩
    else
      match s.posts.find? (fun p => p.id == id) with
      | none => ⟨404, s, none⟩
      | some p => ⟨200, softDeleteAt s id, some { p with isActive := false }⟩
  else ⟨503, s, none⟩

/-- `DELETE /api/posts/:id` of `server.js`: ObjectId validity, then
`findById` + the soft delete; when the store is unreachable the lookup
rejects and the catch block answers 500. -/
def deletePost_srv (connected : Bool) (id : String) (s : ContentStore) : MutResp :=
  if !objectIdValid id then ⟨400, s, none⟩
  else if !connected then ⟨500, s, none⟩
  else
    match s.posts.find? (fun p => p.id == id) with
    | none => ⟨404, s, none⟩
    | some p => ⟨200, softDeleteAt s id, some { p with isActive := false }⟩

/-- Descending event-date order used by `.sort({ date: -1 })`. -/
def dateGe (a b : Post) : Prop := b.date ≤ a.date

instance : DecidableRel dateGe := fun a b => Nat.decLe b.date a.date

instance : IsTotal Post dateGe := ⟨fun a b => Nat.le_total b.date a.date⟩

instance : IsTrans Post dateGe := ⟨fun _ _ _ h h' => Nat.le_trans h' h⟩

/-- `Post.find(filter).sort({ date: -1 })`: the matching documents, newest
event date first (tie order in the backing store is unspecified; the model
fixes one sort). -/
def findSorted (pred : Post → Bool) (posts : List Post) : List Post :=
  List.insertionSort dateGe (posts.filter pred)

/-- A serialized post of a list response (`_id`, `category` etc. as JSON). -/
structure RespPost where
  idStr : String
  title : String
  text : String
  category : String
  images : List String
  date : Nat
  author : String
  isActive : Bool
deriving DecidableEq, Repr

/-- JSON serialization of a stored Post. -/
def Post.toResp (p : Post) : RespPost :=
  { idStr := p.id
    title := p.title
    text := p.text
    category := p.category.toStr
    images := p.images
    date := p.date
    author := p.author
    isActive := p.isActive }

/-- The category filter of `GET /api/posts` in `server.js` and the Render
server: `if (category && category !== 'all') filter.category = category`. -/
def matchesFilter_srv (q : Option String) (p : Post) : Bool :=
  match q with
  | some f => if f != "" && f != "all" then p.category.toStr == f else true
  | none => true

/-- The category filter of the dual-DB route (`part_000` lines 896-937) and of
the `getPosts` controller (`part_001` lines 409-423):
`if (category) filter.category = category` — no `'all'` sentinel. -/
def matchesFilter_ctrl (q : Option String) (p : Post) : Bool :=
  match q with
  | some f => if f != "" then p.category.toStr == f else true
  | none => true

/-- The synthetic placeholder returned by the fallback branch of
`GET /api/posts` (`category: category || 'Eventos'`, `date` = current time). -/
def fallbackPost (now : Nat) (q : Option String) : RespPost :=
  { idStr := "fallback-1"
    title := "Sistema IPB Online!"
    text := "Backend funcionando perfeitamente."
    category := match q with | some f => if f != "" then f else "Eventos" | none => "Eventos"
    images := []
    date := now
    author := "Sistema"
    isActive := true }

/-- `GET /api/posts` of `server.js`: active posts matching the filter, newest
first, when the store is reachable; otherwise the single synthetic
placeholder. -/
def listPosts_srv (connected : Bool) (now : Nat) (q : Option String)
    (s : ContentStore) : List RespPost :=
  if connected then
    (findSorted (fun p => p.isActive && matchesFilter_srv q p) s.posts).map Post.toResp
  else [fallbackPost now q]

/-- The `getPosts` controller (`part_001` lines 409-423): active posts with
the no-sentinel equality filter, newest first. -/
def getPosts_ctrl (q : Option String) (s : ContentStore) : List RespPost :=
  (findSorted (fun p => p.isActive && matchesFilter_ctrl q p) s.posts).map Post.toResp

/-- Outcome of `GET /api/posts/:id`. -/
inductive GetResult
  | ok (p : Post)
  | invalidId
  | notFound
  | unavailable
deriving DecidableEq, Repr

/-- `GET /api/posts/:id` of the Render server (`part_001` lines 281-304); the
MongoDB branch of the dual-DB route (`part_000` lines 994-1035) behaves the
same, and its SQLite branch also filters `isActive = 1`.  The lookup is
`findOne({ _id: id, isActive: true })`. -/
def getPostById_route (connected : Bool) (id : String) (s : ContentStore) : GetResult :=
  if connected then
    if !objectIdValid id then .invalidId
    else
      match s.posts.find? (fun p => p.id == id && p.isActive) with
      | some p => .ok p
      | none => .notFound
  else .unavailable

/-- The `getPostById` controller (`part_001` lines 426-436):
`Post.findById(id)` — no `isActive` filter. -/
def getPostById_ctrl (id : String) (s : ContentStore) : GetResult :=
  match s.posts.find? (fun p => p.id == id) with
  | some p => .ok p
  | none => .notFound

/-- Number of active posts in a given category
(the `$match isActive / $group by category` aggregation, per category). -/
def countActive (posts : List Post) (c : Category) : Nat :=
  (posts.filter (fun p => p.isActive && p.category == c)).length

/-- Response of `GET /api/posts/count`. -/
structure CountResp where
  status : Nat
  counts : List (Category × Nat)
deriving DecidableEq, Repr

/-- The default six-key map with all counts 0. -/
def zeroCounts : List (Category × Nat) := Category.elems.map (fun c => (c, 0))

/-- `GET /api/posts/count` of the dual-DB server (`part_000` lines 828-893)
and the Render server (`part_001` lines 211-240): start from the six-key
default map; when the store is reachable and the aggregation succeeds, merge
the per-category counts in (every aggregated key passes the `hasOwnProperty`
check since the schema enum is closed); on aggregation failure or an
unreachable store, answer the defaults — always with HTTP 200. -/
def postsCount_route (connected : Bool) (aggFails : Bool) (posts : List Post) : CountResp :=
  if connected then
    if aggFails then ⟨200, zeroCounts⟩
    else ⟨200, Category.elems.map (fun c => (c, countActive posts c))⟩
  else ⟨200, zeroCounts⟩

/-- The `getPostsCountByCategory` controller (`part_001` lines 501-517): the
result object holds only the categories produced by the aggregation, i.e.
those with at least one active post — no zero-filled defaults. -/
def postsCountByCategory_ctrl (posts : List Post) : List (Category × Nat) :=
  (Category.elems.filter (fun c => countActive posts c != 0)).map
    (fun c => (c, countActive posts c))

/-! ## Image stores and the orphan sweep -/

/-- State of the disk-upload server (`part_000`): the files under
`uploads/posts/` and the Post collection. -/
structure DiskStore where
  files : List String
  posts : List Post
deriving DecidableEq, Repr

/-- `Post.cleanupOrphanedImages` of the disk-upload server (`part_000` lines
154-174): `distinct('images')` over **all** posts (no `isActive` filter), then
delete every file whose URL `BASE_URL + '/uploads/posts/' + file` is not among
the used references. -/
def cleanupOrphanedImages (baseUrl : String) (s : DiskStore) : DiskStore :=
  let usedImages := ((s.posts.map Post.images).flatten).dedup
  { s with
      files := s.files.filter
        (fun f => usedImages.contains (baseUrl ++ "/uploads/posts/" ++ f)) }

/-- A GridFS file: its ObjectId (24 lowercase hex chars) and filename. -/
structure GridImage where
  id : String
  filename : String
deriving DecidableEq, Repr

/-- State of the GridFS server (`server.js`): the GridFS bucket contents and
the Post collection. -/
structure GridStore where
  images : List GridImage
  posts : List Post
deriving DecidableEq, Repr

/-- `startsWithChars p l` decides whether `p` is an initial segment of `l`. -/
def startsWithChars : List Char → List Char → Bool
  | [], _ => true
  | _ :: _, [] => false
  | p :: ps, c :: cs => p == c && startsWithChars ps cs

/-- Reads 24 lowercase-hex chars from the head of `cs`, the capture group
`([a-f0-9]{24})`. -/
def hex24 (cs : List Char) : Option String :=
  let hd := cs.take 24
  if hd.length == 24 && hd.all isHexLower then some (String.mk hd) else none

/-- Leftmost match of the regex `\/api\/images\/([a-f0-9]{24})` over a
character list: at each position, try the literal `/api/images/` followed by
24 hex chars, else advance. -/
def findApiImagesId : List Char → Option String
  | [] => none
  | c :: rest =>
    match (if startsWithChars "/api/images/".toList (c :: rest)
           then hex24 ((c :: rest).drop 12) else none) with
    | some idStr => some idStr
    | none => findApiImagesId rest

/-- `url.match(/\/api\/images\/([a-f0-9]{24})/)` returning the captured id. -/
def extractImageId (url : String) : Option String :=
  findApiImagesId url.toList

/-- `Post.cleanupOrphanedImages` of the GridFS server (`server.js` lines
141-167): `distinct('images')` over **all** posts, extract the ObjectIds via
the regex, then delete every GridFS file whose id is not among the extracted
ids. -/
def cleanupOrphanedImagesGrid (s : GridStore) : GridStore :=
  let usedImageIds := (((s.posts.map Post.images).flatten).dedup).filterMap extractImageId
  { s with images := s.images.filter (fun img => usedImageIds.contains img.id) }

/-! ## Credential store, password hashing and session tokens -/

/-- The role enumeration of the User schema. -/
inductive Role
  | admin
  | editor
  | viewer
deriving DecidableEq, Repr

/-- The role's string form, as stored and as carried in token claims. -/
def Role.toStr : Role → String
  | .admin => "admin"
  | .editor => "editor"
  | .viewer => "viewer"

/-- A stored User document (username already lowercased/trimmed by the schema;
`password` holds the bcrypt hash written by the pre-save hook). -/
structure User where
  id : String
  name : String
  username : String
  password : String
  role : Role
  isActive : Bool
  lastLogin : Option Nat
deriving DecidableEq, Repr

/-- Model of the external bcryptjs hash: an opaque executable tag such that
`bcryptCompare` succeeds exactly on the hashed plaintext. -/
def bcryptHash (plain : String) : String := "bcrypt$2a$10$" ++ plain

/-- Model of `bcrypt.compare`: the candidate matches iff hashing it yields the
stored hash. -/
def bcryptCompare (candidate stored : String) : Bool := stored == bcryptHash candidate

/-- A signed session token: claims, expiry timestamp, and signature. -/
structure Token where
  claims : TokenClaims
  exp : Nat
  sig : String
deriving DecidableEq, Repr

/-- Model of the external HMAC: a concrete executable signature over the
secret, the claims and the expiry. -/
def mkSig (secret : String) (c : TokenClaims) (e : Nat) : String :=
  secret ++ "#" ++ c.userId ++ "#" ++ c.username ++ "#" ++ c.name ++ "#" ++
    c.role ++ "#" ++ toString e

/-- `expiresIn: '30d'` in milliseconds. -/
def thirtyDaysMs : Nat := 30 * 24 * 60 * 60 * 1000

/-- `jwt.sign(claims, secret, { expiresIn: '30d' })`. -/
def jwtSign (secret : String) (c : TokenClaims) (now : Nat) : Token :=
  { claims := c, exp := now + thirtyDaysMs, sig := mkSig secret c (now + thirtyDaysMs) }

/-- `jwt.verify(token, secret)`: the claims when the signature checks out
under the same secret and the token has not expired, else failure. -/
def jwtVerify (secret : String) (t : Token) (now : Nat) : Option TokenClaims :=
  if t.sig == mkSig secret t.claims t.exp && now ≤ t.exp then some t.claims else none

/-- JS `x || ''` over an optional string. -/
def jsStr : Option String → String
  | some s => s
  | none => ""

/-- Model of the JS `String.prototype.trim` built-in: strip leading and
trailing spaces. -/
def jsTrim (s : String) : String :=
  String.mk (((s.toList.dropWhile (· == ' ')).reverse.dropWhile (· == ' ')).reverse)

/-- Model of the JS `String.prototype.toLowerCase` built-in over ASCII. -/
def jsToLower (s : String) : String :=
  String.mk (s.toList.map fun c => if 'A' ≤ c && c ≤ 'Z' then Char.ofNat (c.toNat + 32) else c)

/-- `username?.trim().toLowerCase() || ''`. -/
def cleanUsername (q : Option String) : String := jsToLower (jsTrim (jsStr q))

/-- Outcome of `POST /api/auth/login`. -/
structure LoginResp where
  status : Nat
  token : Option Token
deriving DecidableEq, Repr

/-- `POST /api/auth/login` of `server.js` (lines 271-337): clean the
credentials, find an active user by username, check the password, then sign a
token carrying `{ userId, username, name, role }`. -/
def loginHandler (users : List User) (secret : String) (now : Nat)
    (username password : Option String) : LoginResp :=
  let un := cleanUsername username
  let pw := jsTrim (jsStr password)
  match users.find? (fun u => u.username == un && u.isActive) with
  | none => ⟨401, none⟩
  | some u =>
    if bcryptCompare pw u.password then
      ⟨200, some (jwtSign secret ⟨u.id, u.username, u.name, u.role.toStr⟩ now)⟩
    else ⟨401, none⟩

/-! ## Helper lemmas -/

/-- Every category is listed in `Category.elems`. -/
theorem mem_elems (c : Category) : c ∈ Category.elems := by
  cases c <;> simp [Category.elems]

/-- No category label is the sentinel string `"all"`. -/
theorem toStr_ne_all (c : Category) : c.toStr ≠ "all" := by
  cases c <;> decide

/-- Membership in a sorted query result is membership in the collection plus
the filter predicate. -/
theorem mem_findSorted {pred : Post → Bool} {posts : List Post} {p : Post} :
    p ∈ findSorted pred posts ↔ p ∈ posts ∧ pred p = true := by
  unfold findSorted
  rw [List.mem_insertionSort, List.mem_filter]

/-- Query results are sorted newest event-date first. -/
theorem sorted_findSorted (pred : Post → Bool) (posts : List Post) :
    (findSorted pred posts).Pairwise dateGe :=
  List.sorted_insertionSort dateGe _

/-- Looking a post up by id after the soft-delete map finds the soft-deleted
version of whatever the lookup found before. -/
theorem find?_softDeleteAt (l : List Post) (id : String) :
    ((l.map (fun p => if p.id == id then { p with isActive := false } else p)).find?
        (fun p => p.id == id)) =
      (l.find? (fun p => p.id == id)).map (fun p => { p with isActive := false }) := by
  induction l with
  | nil => rfl
  | cons p ps ih =>
    by_cases h : p.id = id
    · simp [List.find?_cons, h, -List.find?_map]
    · have hb : (p.id == id) = false := by simp [h]
      simp [List.find?_cons, h, hb, -List.find?_map]
      simpa using ih

/-- The six per-category active counts sum to the number of active posts. -/
theorem sum_countActive (posts : List Post) :
    (Category.elems.map (fun c => countActive posts c)).sum =
      (posts.filter (fun p => p.isActive)).length := by
  induction posts with
  | nil => rfl
  | cons p ps ih =>
    simp only [countActive, List.filter_cons] at *
    cases hp : p.isActive
    · simpa [hp] using ih
    · cases hc : p.category <;> simp_all [Category.elems] <;> omega

/-! ## Claim theorems -/

/-- C9: running the orphan sweep twice with no intervening mutation is
idempotent — the state after two runs equals the state after one run, in both
the disk-upload sweep and the GridFS sweep. -/
theorem sweepOrphans_idempotent (baseUrl : String) (sD : DiskStore) (sG : GridStore) :
    cleanupOrphanedImages baseUrl (cleanupOrphanedImages baseUrl sD) =
      cleanupOrphanedImages baseUrl sD ∧
    cleanupOrphanedImagesGrid (cleanupOrphanedImagesGrid sG) =
      cleanupOrphanedImagesGrid sG := by
  constructor
  · unfold cleanupOrphanedImages
    simp [List.filter_filter]
  · unfold cleanupOrphanedImagesGrid
    simp [List.filter_filter]

/-- C4: an image whose reference appears in the image list of some Post —
active or not — is never deleted by the orphan sweep: the disk sweep keeps a
file whose URL is listed by any post, and the GridFS sweep keeps a file whose
id the reference regex extracts from any post's listed URL. -/
theorem sweepOrphans_keeps_referenced (baseUrl f u : String) (p q : Post)
    (img : GridImage) (sD : DiskStore) (sG : GridStore)
    (hpD : p ∈ sD.posts) (hrefD : (baseUrl ++ "/uploads/posts/" ++ f) ∈ p.images)
    (hfD : f ∈ sD.files)
    (hqG : q ∈ sG.posts) (hrefG : u ∈ q.images) (hex : extractImageId u = some img.id)
    (himg : img ∈ sG.images) :
    f ∈ (cleanupOrphanedImages baseUrl sD).files ∧
    img ∈ (cleanupOrphanedImagesGrid sG).images := by
  constructor
  · unfold cleanupOrphanedImages
    simp only [List.mem_filter]
    refine ⟨hfD, ?_⟩
    simp only [List.elem_iff, List.mem_dedup, List.mem_flatten, decide_eq_true_eq]
    exact ⟨p.images, List.mem_map_of_mem Post.images hpD, hrefD⟩
  · unfold cleanupOrphanedImagesGrid
    simp only [List.mem_filter]
    refine ⟨himg, ?_⟩
    simp only [List.elem_iff, List.mem_filterMap, List.mem_dedup,
      List.mem_flatten, decide_eq_true_eq]
    exact ⟨u, ⟨q.images, List.mem_map_of_mem Post.images hqG, hrefG⟩, hex⟩

/-- C4 witness: a file and a GridFS image referenced only by an inactive post
survive the sweep. -/
theorem sweepOrphans_keeps_referenced_witness :
    "img1.png" ∈ (cleanupOrphanedImages "http://h"
      ⟨["img1.png"],
       [⟨"1", "T", "X", Category.eventos, ["http://h/uploads/posts/img1.png"], 5, "Admin", false⟩]⟩).files ∧
    (⟨"aaaaaaaaaaaaaaaaaaaaaaaa", "f.png"⟩ : GridImage) ∈ (cleanupOrphanedImagesGrid
      ⟨[⟨"aaaaaaaaaaaaaaaaaaaaaaaa", "f.png"⟩],
       [⟨"2", "T", "X", Category.saf, ["http://h/api/images/aaaaaaaaaaaaaaaaaaaaaaaa"], 5, "Admin", false⟩]⟩).images :=
  sweepOrphans_keeps_referenced "http://h" "img1.png"
    "http://h/api/images/aaaaaaaaaaaaaaaaaaaaaaaa"
    ⟨"1", "T", "X", Category.eventos, ["http://h/uploads/posts/img1.png"], 5, "Admin", false⟩
    ⟨"2", "T", "X", Category.saf, ["http://h/api/images/aaaaaaaaaaaaaaaaaaaaaaaa"], 5, "Admin", false⟩
    ⟨"aaaaaaaaaaaaaaaaaaaaaaaa", "f.png"⟩
    ⟨["img1.png"],
     [⟨"1", "T", "X", Category.eventos, ["http://h/uploads/posts/img1.png"], 5, "Admin", false⟩]⟩
    ⟨[⟨"aaaaaaaaaaaaaaaaaaaaaaaa", "f.png"⟩],
     [⟨"2", "T", "X", Category.saf, ["http://h/api/images/aaaaaaaaaaaaaaaaaaaaaaaa"], 5, "Admin", false⟩]⟩
    (by decide) (by decide) (by decide) (by decide) (by decide) (by decide) (by decide)

/-- C10: the category-count endpoint always answers HTTP 200 carrying the
six-category map; when the backing store is unreachable or the aggregation
fails it answers all-zero counts instead of surfacing the error. -/
theorem countEndpoint_never_errors (connected aggFails : Bool) (posts : List Post) :
    (postsCount_route connected aggFails posts).status = 200 ∧
    (postsCount_route connected aggFails posts).counts.map Prod.fst = Category.elems ∧
    (connected = false ∨ aggFails = true →
      (postsCount_route connected aggFails posts).counts = zeroCounts) := by
  unfold postsCount_route
  cases connected <;> cases aggFails <;> simp [zeroCounts, List.map_map, Function.comp_def]

/-- C10 witness: with the store unreachable and the aggregation failing, the
endpoint answers 200 with the zero-filled six-category map. -/
theorem countEndpoint_never_errors_witness :
    (postsCount_route false true []).status = 200 ∧
    (postsCount_route false true []).counts = zeroCounts :=
  ⟨(countEndpoint_never_errors false true []).1,
   (countEndpoint_never_errors false true []).2.2 (Or.inl rfl)⟩

/-- C3 counterexample: on the empty store the `getPostsCountByCategory`
controller returns an empty map, so its key set is not the six fixed
categories — zero-count categories are omitted, contrary to the claim. -/
theorem countByCategory_ctrl_omits_zero_cex :
    postsCountByCategory_ctrl [] = [] ∧ Category.elems ≠ [] := by
  decide

/-- C3 amended: the count route endpoints return a map whose key list is
exactly the six fixed categories and whose values sum to the number of active
posts; the `getPostsCountByCategory` controller instead returns exactly the
categories with at least one active post (zero-count categories omitted),
with the same per-category counts. -/
theorem countByCategory_amended (posts : List Post) :
    (postsCount_route true false posts).counts.map Prod.fst = Category.elems ∧
    ((postsCount_route true false posts).counts.map Prod.snd).sum =
      (posts.filter (fun p => p.isActive)).length ∧
    (∀ c : Category, c ∈ (postsCountByCategory_ctrl posts).map Prod.fst ↔
      countActive posts c ≠ 0) ∧
    (∀ c n, (c, n) ∈ postsCountByCategory_ctrl posts → n = countActive posts c) := by
  refine ⟨?_, ?_, ?_, ?_⟩
  · simp [postsCount_route, List.map_map, Function.comp_def]
  · simpa [postsCount_route, List.map_map, Function.comp] using sum_countActive posts
  · intro c
    simp [postsCountByCategory_ctrl, List.map_map, List.mem_filter, mem_elems]
  · intro c n hmem
    simp only [postsCountByCategory_ctrl, List.mem_map, List.mem_filter] at hmem
    obtain ⟨c', _, hpair⟩ := hmem
    obtain ⟨h1, h2⟩ := Prod.mk.injEq .. ▸ hpair
    exact h1 ▸ h2.symm

/-- C3 amended witness: a store with one active Eventos post — the controller
map does list Eventos, because its active count is nonzero. -/
theorem countByCategory_amended_witness :
    Category.eventos ∈ (postsCountByCategory_ctrl
      [⟨"1", "T", "X", Category.eventos, [], 5, "Admin", true⟩]).map Prod.fst :=
  ((countByCategory_amended [⟨"1", "T", "X", Category.eventos, [], 5, "Admin", true⟩]).2.2.1
      Category.eventos).mpr (by decide)

/-- C1 counterexample: on a store holding one soft-deleted post, the
`GET /api/posts/:id` route answers NotFound for its id — it does not return
the post with `active = false` as the claim states, because the lookup
filters `isActive: true`. -/
theorem getById_route_softDeleted_cex :
    getPostById_route true "aaaaaaaaaaaaaaaaaaaaaaaa"
      ⟨[⟨"aaaaaaaaaaaaaaaaaaaaaaaa", "T", "X", Category.eventos, [], 5, "Admin", false⟩], 2⟩ =
      GetResult.notFound := by
  decide

/-- C1 amended: after soft-deleting a post, `list()` no longer includes it and
the `getPostById` controller still returns it with `active = false`, but the
`GET /api/posts/:id` route handlers (dual-DB and Render versions) filter on
the active flag and fail with NotFound for its id. -/
theorem softDelete_list_getById_amended (s : ContentStore) (id : String) (now : Nat)
    (p : Post)
    (hid : objectIdValid id = true)
    (hfind : s.posts.find? (fun q => q.id == id) = some p) :
    (deletePost_render true id s).status = 200 ∧
    (∀ r ∈ listPosts_srv true now none (deletePost_render true id s).store,
      r.idStr ≠ id) ∧
    getPostById_route true id (deletePost_render true id s).store = .notFound ∧
    (∃ p', getPostById_ctrl id (deletePost_render true id s).store = .ok p' ∧
      p'.isActive = false) := by
  have hstore : (deletePost_render true id s).store = softDeleteAt s id := by
    simp [deletePost_render, hid, hfind]
  have hstatus : (deletePost_render true id s).status = 200 := by
    simp [deletePost_render, hid, hfind]
  refine ⟨hstatus, ?_, ?_, ?_⟩
  · intro r hr
    rw [hstore] at hr
    simp only [listPosts_srv, if_true, List.mem_map] at hr
    obtain ⟨q', hq', hresp⟩ := hr
    rw [mem_findSorted] at hq'
    obtain ⟨hmem, hact⟩ := hq'
    simp only [softDeleteAt, List.mem_map] at hmem
    obtain ⟨q, _, hq⟩ := hmem
    intro hbad
    rw [← hresp] at hbad
    simp only [Post.toResp] at hbad
    by_cases h : q.id = id
    · have hEq : q' = { q with isActive := false } := by simpa [h] using hq.symm
      rw [hEq] at hact
      simp at hact
    · have hEq : q' = q := by simpa [h] using hq.symm
      rw [hEq] at hbad
      exact h hbad
  · rw [hstore]
    simp only [getPostById_route, if_true, hid]
    have : (softDeleteAt s id).posts.find? (fun p => p.id == id && p.isActive) = none := by
      rw [List.find?_eq_none]
      intro x hx
      simp only [softDeleteAt, List.mem_map] at hx
      obtain ⟨q, _, hq⟩ := hx
      by_cases h : q.id = id
      · have : x = { q with isActive := false } := by simpa [h] using hq.symm
        simp [this]
      · have : x = q := by simpa [h] using hq.symm
        simp [this, h]
    simp [this]
  · rw [hstore]
    refine ⟨{ p with isActive := false }, ?_, rfl⟩
    simp only [getPostById_ctrl, softDeleteAt]
    rw [find?_softDeleteAt, hfind]
    rfl

/-- C1 amended witness: a concrete one-post store run through soft delete. -/
theorem softDelete_list_getById_amended_witness :
    getPostById_route true "aaaaaaaaaaaaaaaaaaaaaaaa"
      (deletePost_render true "aaaaaaaaaaaaaaaaaaaaaaaa"
        ⟨[⟨"aaaaaaaaaaaaaaaaaaaaaaaa", "T", "X", Category.eventos, [], 5, "Admin", true⟩], 2⟩).store =
      .notFound ∧
    (∃ p', getPostById_ctrl "aaaaaaaaaaaaaaaaaaaaaaaa"
      (deletePost_render true "aaaaaaaaaaaaaaaaaaaaaaaa"
        ⟨[⟨"aaaaaaaaaaaaaaaaaaaaaaaa", "T", "X", Category.eventos, [], 5, "Admin", true⟩], 2⟩).store =
        .ok p' ∧ p'.isActive = false) :=
  ⟨(softDelete_list_getById_amended
      ⟨[⟨"aaaaaaaaaaaaaaaaaaaaaaaa", "T", "X", Category.eventos, [], 5, "Admin", true⟩], 2⟩
      "aaaaaaaaaaaaaaaaaaaaaaaa" 0
      ⟨"aaaaaaaaaaaaaaaaaaaaaaaa", "T", "X", Category.eventos, [], 5, "Admin", true⟩
      (by decide) (by decide)).2.2.1,
   (softDelete_list_getById_amended
      ⟨[⟨"aaaaaaaaaaaaaaaaaaaaaaaa", "T", "X", Category.eventos, [], 5, "Admin", true⟩], 2⟩
      "aaaaaaaaaaaaaaaaaaaaaaaa" 0
      ⟨"aaaaaaaaaaaaaaaaaaaaaaaa", "T", "X", Category.eventos, [], 5, "Admin", true⟩
      (by decide) (by decide)).2.2.2⟩

/-- C2 counterexample: with the backing store unreachable, a valid create
request to the GridFS server's `POST /api/posts` fails with 400 (the rejected
save caught by the handler), not with ServiceUnavailable (503) as the claim
states for every mutating operation. -/
theorem fallback_create_srv_cex :
    (createPostRoute_srv false (some ⟨"1", "almir", "Almir", "admin"⟩)
      ⟨"A", "B", "Eventos", "2024-01-01", some ["x"], none⟩ ⟨[], 1⟩).status = 400 ∧
    ¬ (createPostRoute_srv false (some ⟨"1", "almir", "Almir", "admin"⟩)
      ⟨"A", "B", "Eventos", "2024-01-01", some ["x"], none⟩ ⟨[], 1⟩).status = 503 := by
  decide

/-- C2 amended: when the backing store is unreachable, `list` returns exactly
the one synthetic placeholder; the Render server's create/update (once field
validation passes) and soft-delete fail with ServiceUnavailable (503) without
changing state; the GridFS server's create/update fail with 400 and its
soft-delete with 400/500 from the failed operation, also without changing
state — so no write is ever accepted in fallback mode. -/
theorem fallback_mode_amended (s : ContentStore) (now : Nat) (q : Option String)
    (b : PostBody) (id authorName : String)
    (hb : fieldsMissing b = false) :
    listPosts_srv false now q s = [fallbackPost now q] ∧
    createPost_render false b s = ⟨503, s, none⟩ ∧
    updatePost_render false id b s = ⟨503, s, none⟩ ∧
    deletePost_render false id s = ⟨503, s, none⟩ ∧
    createPost_srv false authorName b s = ⟨400, s, none⟩ ∧
    updatePost_srv false id b s = ⟨400, s, none⟩ ∧
    (deletePost_srv false id s).store = s ∧
    (deletePost_srv false id s).payload = none ∧
    400 ≤ (deletePost_srv false id s).status := by
  refine ⟨?_, ?_, ?_, ?_, ?_, ?_, ?_, ?_, ?_⟩
  · simp [listPosts_srv]
  · simp [createPost_render, hb]
  · simp [updatePost_render, hb]
  · simp [deletePost_render]
  · unfold createPost_srv
    cases hf : fieldsMissing b <;> cases hc : parseCategory b.category <;> simp [hf, hc]
  · unfold updatePost_srv
    cases hf : fieldsMissing b <;> cases hv : objectIdValid id <;> simp [hf, hv]
  · unfold deletePost_srv
    cases hv : objectIdValid id <;> simp [hv]
  · unfold deletePost_srv
    cases hv : objectIdValid id <;> simp [hv]
  · unfold deletePost_srv
    cases hv : objectIdValid id <;> simp [hv]

/-- C2 amended witness: the fallback behaviors at a concrete store and valid
body. -/
theorem fallback_mode_amended_witness :
    listPosts_srv false 7 (some "SAF") ⟨[], 1⟩ = [fallbackPost 7 (some "SAF")] ∧
    createPost_render false ⟨"A", "B", "Eventos", "2024-01-01", some ["x"], none⟩ ⟨[], 1⟩ =
      ⟨503, ⟨[], 1⟩, none⟩ ∧
    createPost_srv false "Almir" ⟨"A", "B", "Eventos", "2024-01-01", some ["x"], none⟩ ⟨[], 1⟩ =
      ⟨400, ⟨[], 1⟩, none⟩ :=
  ⟨(fallback_mode_amended ⟨[], 1⟩ 7 (some "SAF")
      ⟨"A", "B", "Eventos", "2024-01-01", some ["x"], none⟩ "id" "Almir" (by decide)).1,
   (fallback_mode_amended ⟨[], 1⟩ 7 (some "SAF")
      ⟨"A", "B", "Eventos", "2024-01-01", some ["x"], none⟩ "id" "Almir" (by decide)).2.1,
   (fallback_mode_amended ⟨[], 1⟩ 7 (some "SAF")
      ⟨"A", "B", "Eventos", "2024-01-01", some ["x"], none⟩ "id" "Almir" (by decide)).2.2.2.2.1⟩

/-- C5 counterexample: a create request by an admin with an empty `images`
list (all other fields valid) succeeds with 201 — the handlers validate only
title, text, category and date, so missing/empty `images` does not fail with
ValidationError as the claim states. -/
theorem create_empty_images_accepted_cex :
    (createPostRoute_srv true (some ⟨"1", "almir", "Almir", "admin"⟩)
      ⟨"A", "B", "Eventos", "2024-01-01", some [], none⟩ ⟨[], 1⟩).status = 201 ∧
    (createPostRoute_srv true (some ⟨"1", "almir", "Almir", "admin"⟩)
      ⟨"A", "B", "Eventos", "2024-01-01", none, none⟩ ⟨[], 1⟩).status = 201 := by
  decide

/-- C5 amended: if any of title, text, category or date is missing or empty,
create and update fail with ValidationError (400) and the store is unchanged —
in both the GridFS and the Render server; `images` is not part of the
validation. -/
theorem validation_four_fields_amended (connected : Bool) (authorName id : String)
    (b : PostBody) (s : ContentStore)
    (h : b.title = "" ∨ b.text = "" ∨ b.category = "" ∨ b.date = "") :
    createPost_srv connected authorName b s = ⟨400, s, none⟩ ∧
    createPost_render connected b s = ⟨400, s, none⟩ ∧
    updatePost_srv connected id b s = ⟨400, s, none⟩ ∧
    updatePost_render connected id b s = ⟨400, s, none⟩ := by
  have hm : fieldsMissing b = true := by
    unfold fieldsMissing
    rcases h with h | h | h | h <;> simp [h]
  unfold createPost_srv createPost_render updatePost_srv updatePost_render
  simp [hm]

/-- C5 amended witness: a body with an empty title is rejected with 400 and
the store unchanged. -/
theorem validation_four_fields_amended_witness :
    createPost_srv true "Almir" ⟨"", "B", "Eventos", "2024-01-01", some ["x"], none⟩ ⟨[], 1⟩ =
      ⟨400, ⟨[], 1⟩, none⟩ ∧
    updatePost_render true "aaaaaaaaaaaaaaaaaaaaaaaa"
      ⟨"", "B", "Eventos", "2024-01-01", some ["x"], none⟩ ⟨[], 1⟩ =
      ⟨400, ⟨[], 1⟩, none⟩ :=
  ⟨(validation_four_fields_amended true "Almir" "aaaaaaaaaaaaaaaaaaaaaaaa"
      ⟨"", "B", "Eventos", "2024-01-01", some ["x"], none⟩ ⟨[], 1⟩ (Or.inl rfl)).1,
   (validation_four_fields_amended true "Almir" "aaaaaaaaaaaaaaaaaaaaaaaa"
      ⟨"", "B", "Eventos", "2024-01-01", some ["x"], none⟩ ⟨[], 1⟩ (Or.inl rfl)).2.2.2⟩

/-- C6: a successful create by an authenticated admin/editor stores the
caller's display name (from the verified token claims) as the post's author,
and two requests by the same caller differing only in a client-supplied
author field produce identical results — client input never determines the
author. -/
theorem author_from_caller (claims : TokenClaims) (b : PostBody) (s : ContentStore)
    (c : Category) (a1 a2 : Option String)
    (hrole : claims.role = "admin" ∨ claims.role = "editor")
    (hfields : fieldsMissing b = false)
    (hcat : parseCategory b.category = some c) :
    (∃ p st, createPostRoute_srv true (some claims) b s = ⟨201, st, some p⟩ ∧
      p.author = claims.name) ∧
    createPostRoute_srv true (some claims) { b with author := a1 } s =
      createPostRoute_srv true (some claims) { b with author := a2 } s := by
  constructor
  · have hgate : (claims.role != "admin" && claims.role != "editor") = false := by
      rcases hrole with h | h <;> simp [h]
    refine ⟨(savePost s b c claims.name).1, (savePost s b c claims.name).2, ?_, rfl⟩
    simp [createPostRoute_srv, hgate, createPost_srv, hfields, hcat]
  · rfl

/-- C6 witness: an editor's create stores the editor's name as author. -/
theorem author_from_caller_witness :
    ∃ p st, createPostRoute_srv true (some ⟨"7", "milena", "Milena", "editor"⟩)
        ⟨"A", "B", "SAF", "2024-01-01", some ["x"], some "Mallory"⟩ ⟨[], 1⟩ =
        ⟨201, st, some p⟩ ∧
      p.author = "Milena" :=
  (author_from_caller ⟨"7", "milena", "Milena", "editor"⟩
      ⟨"A", "B", "SAF", "2024-01-01", some ["x"], some "Mallory"⟩ ⟨[], 1⟩
      Category.saf none none (Or.inr rfl) (by decide) (by decide)).1

/-- C7 counterexample: with one active Eventos post, the `getPosts` controller
treats the sentinel "all" as an ordinary equality filter and returns the
empty sequence, while the claim requires it to return all active posts. -/
theorem list_all_sentinel_cex :
    getPosts_ctrl (some "all")
      ⟨[⟨"1", "T", "X", Category.eventos, [], 5, "Admin", true⟩], 2⟩ = [] ∧
    getPosts_ctrl none
      ⟨[⟨"1", "T", "X", Category.eventos, [], 5, "Admin", true⟩], 2⟩ ≠ [] := by
  decide

/-- C7 amended: in the GridFS/Render servers, `list` returns exactly the
active posts matching a non-sentinel category filter (all active posts when
the filter is absent or "all"), newest event-date first, and an unknown
category yields the empty sequence; the dual-DB route and the `getPosts`
controller instead apply any given category string — including "all" — as an
equality filter, so their `list("all")` is always empty. -/
theorem list_filter_amended (s : ContentStore) (now : Nat) (f : String) :
    (f ≠ "" → f ≠ "all" →
      ∀ r, r ∈ listPosts_srv true now (some f) s ↔
        ∃ p, p ∈ s.posts ∧ p.isActive = true ∧ p.category.toStr = f ∧ r = p.toResp) ∧
    (∀ r, r ∈ listPosts_srv true now none s ↔
      ∃ p, p ∈ s.posts ∧ p.isActive = true ∧ r = p.toResp) ∧
    (∀ r, r ∈ listPosts_srv true now (some "all") s ↔
      ∃ p, p ∈ s.posts ∧ p.isActive = true ∧ r = p.toResp) ∧
    (∀ q, (listPosts_srv true now q s).Pairwise (fun r r' => r'.date ≤ r.date)) ∧
    ((∀ p, p ∈ s.posts → p.category.toStr ≠ f) → f ≠ "" → f ≠ "all" →
      listPosts_srv true now (some f) s = []) ∧
    getPosts_ctrl (some "all") s = [] := by
  have hmm : ∀ (q : Option String) (r : RespPost),
      (r ∈ (findSorted (fun p => p.isActive && matchesFilter_srv q p) s.posts).map
        Post.toResp) ↔
        ∃ p, (p ∈ s.posts ∧ (p.isActive && matchesFilter_srv q p) = true) ∧
          Post.toResp p = r := by
    intro q r
    rw [List.mem_map]
    constructor
    · rintro ⟨p, hp, he⟩
      exact ⟨p, mem_findSorted.mp hp, he⟩
    · rintro ⟨p, hp, he⟩
      exact ⟨p, mem_findSorted.mpr hp, he⟩
  refine ⟨?_, ?_, ?_, ?_, ?_, ?_⟩
  · intro hf hall r
    simp only [listPosts_srv, if_true]
    rw [hmm]
    constructor
    · rintro ⟨p, ⟨hp, hcond⟩, he⟩
      simp [matchesFilter_srv, hf, hall] at hcond
      exact ⟨p, hp, hcond.1, hcond.2, he.symm⟩
    · rintro ⟨p, hp, hact, hcat, he⟩
      refine ⟨p, ⟨hp, ?_⟩, he.symm⟩
      simp [matchesFilter_srv, hf, hall, hact, hcat]
  · intro r
    simp only [listPosts_srv, if_true]
    rw [hmm]
    constructor
    · rintro ⟨p, ⟨hp, hcond⟩, he⟩
      simp [matchesFilter_srv] at hcond
      exact ⟨p, hp, hcond, he.symm⟩
    · rintro ⟨p, hp, hact, he⟩
      exact ⟨p, ⟨hp, by simp [matchesFilter_srv, hact]⟩, he.symm⟩
  · intro r
    simp only [listPosts_srv, if_true]
    rw [hmm]
    constructor
    · rintro ⟨p, ⟨hp, hcond⟩, he⟩
      simp [matchesFilter_srv] at hcond
      exact ⟨p, hp, hcond, he.symm⟩
    · rintro ⟨p, hp, hact, he⟩
      exact ⟨p, ⟨hp, by simp [matchesFilter_srv, hact]⟩, he.symm⟩
  · intro q
    simp only [listPosts_srv, if_true]
    rw [List.pairwise_map]
    exact sorted_findSorted _ _
  · intro hnone hf hall
    have hfil : s.posts.filter (fun p => p.isActive && matchesFilter_srv (some f) p) = [] := by
      rw [List.filter_eq_nil_iff]
      intro p hp
      simp [matchesFilter_srv, hf, hall]
      intro _
      exact hnone p hp
    simp [listPosts_srv, findSorted, hfil]
  · have hfil : s.posts.filter (fun p => p.isActive && matchesFilter_ctrl (some "all") p) = [] := by
      rw [List.filter_eq_nil_iff]
      intro p hp
      simp [matchesFilter_ctrl]
      intro _
      exact toStr_ne_all p.category
    simp [getPosts_ctrl, findSorted, hfil]

/-- C7 amended witness: a single active SAF post is returned by
`list("SAF")`. -/
theorem list_filter_amended_witness :
    (⟨"1", "T", "X", Category.saf, [], 5, "Admin", true⟩ : Post).toResp ∈
      listPosts_srv true 0 (some "SAF")
        ⟨[⟨"1", "T", "X", Category.saf, [], 5, "Admin", true⟩], 2⟩ :=
  ((list_filter_amended ⟨[⟨"1", "T", "X", Category.saf, [], 5, "Admin", true⟩], 2⟩ 0 "SAF").1
      (by decide) (by decide) _).mpr
    ⟨⟨"1", "T", "X", Category.saf, [], 5, "Admin", true⟩, by simp, rfl, by decide, rfl⟩

/-- C8: a token issued by a successful login, verified under the same secret
within its validity window, yields claims whose userId, username and role
equal the user's id, username and role at issuance time. -/
theorem login_token_roundtrip (users : List User) (secret : String) (now now' : Nat)
    (qun qpw : Option String) (u : User)
    (hfind : users.find? (fun v => v.username == cleanUsername qun && v.isActive) = some u)
    (hpw : bcryptCompare (jsTrim (jsStr qpw)) u.password = true)
    (hexp : now' ≤ now + thirtyDaysMs) :
    ∃ t, (loginHandler users secret now qun qpw).token = some t ∧
      jwtVerify secret t now' = some ⟨u.id, u.username, u.name, u.role.toStr⟩ ∧
      t.claims.userId = u.id ∧ t.claims.username = u.username ∧
      t.claims.role = u.role.toStr := by
  refine ⟨jwtSign secret ⟨u.id, u.username, u.name, u.role.toStr⟩ now, ?_, ?_, rfl, rfl, rfl⟩
  · simp only [loginHandler, hfind, hpw, if_true]
  · simp [jwtVerify, jwtSign, hexp]

/-- C8 witness: the seeded admin logs in (username needing trim/lowercase)
and the issued token verifies to the matching claims. -/
theorem login_token_roundtrip_witness :
    ∃ t, (loginHandler [⟨"u1", "Almir", "almir", bcryptHash "1515", Role.admin, true, none⟩]
        "ipb_jwt_secret_2024" 100 (some "Almir ") (some "1515")).token = some t ∧
      jwtVerify "ipb_jwt_secret_2024" t 100 =
        some ⟨"u1", "almir", "Almir", Role.admin.toStr⟩ ∧
      t.claims.userId = "u1" ∧ t.claims.username = "almir" ∧
      t.claims.role = Role.admin.toStr :=
  login_token_roundtrip
    [⟨"u1", "Almir", "almir", bcryptHash "1515", Role.admin, true, none⟩]
    "ipb_jwt_secret_2024" 100 100 (some "Almir ") (some "1515")
    ⟨"u1", "Almir", "almir", bcryptHash "1515", Role.admin, true, none⟩
    (by decide) (by decide) (by decide)

end IPB
